import Mathlib

/-
Verification development for the weapon-detection API repository.
Shallow embedding of app/services/detection_service.py, app/models/yolo_model.py,
app/core/exceptions.py and app/config.py.

Modelling conventions:
* Python floats (box coordinates, confidences, inference times) are carried as
  rationals; the code never computes with them, it only passes them through
  (the two-decimal rounding of inference_time_ms is a float-formatting detail
  that no claim depends on, so the measured value is passed through unchanged).
* External collaborators (PIL decode, cv2 encode, the YOLO model, the camera)
  are oracle parameters: an Option result models a call that may raise.
* Raised Python exceptions are modelled with Except / Option: "none" at an
  oracle means the call raised, and the embedding reproduces the try/except
  structure of the source.
* datetime timestamps are external and omitted from the response records.
-/

/-- Error taxonomy of app/core/exceptions.py (each constructor is one
exception class of the source). -/
inductive DetectError where
  | modelLoad
  | invalidImage
  | imageTooLarge
  | detection
  | videoStream
  | cameraNotFound
deriving DecidableEq, Repr

/-- HTTP status code attached to each exception class in app/core/exceptions.py. -/
def status_code : DetectError → Nat
  | .modelLoad => 500
  | .invalidImage => 400
  | .imageTooLarge => 413
  | .detection => 500
  | .videoStream => 500
  | .cameraNotFound => 404

/-- BoundingBox schema (app/models/schemas.py). -/
structure BoundingBox where
  x1 : Rat
  y1 : Rat
  x2 : Rat
  y2 : Rat
deriving DecidableEq, Repr

/-- Detection schema (app/models/schemas.py). -/
structure Detection where
  class_name : String
  confidence : Rat
  bounding_box : BoundingBox
  class_id : Nat
deriving DecidableEq, Repr

/-- ImageDetectionResponse schema (app/models/schemas.py); the timestamp field
is external (datetime.utcnow) and omitted. -/
structure ImageDetectionResponse where
  detections : List Detection
  detection_count : Nat
  inference_time_ms : Rat
  image_size : Nat × Nat
  has_weapons : Bool
deriving DecidableEq, Repr

/-- VideoFrameDetection schema (app/models/schemas.py); timestamp omitted as above. -/
structure VideoFrameDetection where
  frame_number : Nat
  detections : List Detection
  detection_count : Nat
  inference_time_ms : Rat
  has_weapons : Bool
deriving DecidableEq, Repr

/-- Subset of app/config.py Settings used by the claims. -/
structure Settings where
  max_image_size : Nat
  confidence_threshold : Rat
deriving DecidableEq, Repr

/-- One row of a raw YOLO result (boxes.xyxy[i], boxes.conf[i], boxes.cls[i]). -/
structure RawBox where
  xyxy : Rat × Rat × Rat × Rat
  conf : Rat
  cls : Nat
deriving DecidableEq, Repr

/-- One raw YOLO result object. "hasattr(result, 'orig_shape')" and
"hasattr(result, 'names')" are modelled by Option; orig_shape is (height, width)
as in the source; names is the class-id-to-name dict; boxes is None or a list. -/
structure RawResult where
  orig_shape : Option (Nat × Nat)
  names : Option (List (Nat × String))
  boxes : Option (List RawBox)
deriving DecidableEq, Repr

/-- Builds the Detection object of detection_service._process_results lines 92-102. -/
def rowDetection (cls_name : String) (b : RawBox) : Detection :=
  { class_name := cls_name
  , confidence := b.conf
  , bounding_box := { x1 := b.xyxy.1, y1 := b.xyxy.2.1, x2 := b.xyxy.2.2.1, y2 := b.xyxy.2.2.2 }
  , class_id := b.cls }

/-- Python dict lookup names[cls_id]; none models a KeyError. -/
def lookupName (names : List (Nat × String)) (cls_id : Nat) : Option String :=
  match names with
  | [] => none
  | (k, v) :: rest => if k = cls_id then some v else lookupName rest cls_id

/-- Computes cls_name for one row, detection_service.py line 89:
"result.names[cls_id] if hasattr(result, 'names') else f\"class_\x7bcls_id\x7d\"".
A KeyError on the dict lookup (none) propagates out of the mapping. -/
def processRow (names : Option (List (Nat × String))) (b : RawBox) : Option Detection :=
  match names with
  | none => some (rowDetection ("class_" ++ toString b.cls) b)
  | some m =>
    match lookupName m b.cls with
    | none => none
    | some nm => some (rowDetection nm b)

/-- Loop of _process_results lines 80-104: rows are appended in order; the first
raising row aborts the whole call (the partially built list is discarded). -/
def mapRows (names : Option (List (Nat × String))) : List RawBox → Option (List Detection)
  | [] => some []
  | b :: rest =>
    match processRow names b with
    | none => none
    | some d =>
      match mapRows names rest with
      | none => none
      | some ds => some (d :: ds)

/-- DetectionService._process_results (detection_service.py lines 49-106).
Returns (detections, image_size); none models an uncaught exception escaping
the method (the only source of one here is the names[cls_id] KeyError). -/
def processResults (results : List RawResult) : Option (List Detection × (Nat × Nat)) :=
  match results with
  | [] => some ([], (0, 0))
  | result :: _ =>
    let image_size : Nat × Nat :=
      match result.orig_shape with
      | some (h, w) => (w, h)
      | none => (0, 0)
    match result.boxes with
    | none => some ([], image_size)
    | some boxes =>
      match mapRows result.names boxes with
      | none => none
      | some detections => some (detections, image_size)

/-- Oracles for the image endpoints: decode stands for the
Image.open/np.array/cvtColor block (none = it raised, i.e. invalid image);
predict stands for self.model.predict (none = it raised); plot stands for
results[0].plot(); encode stands for cv2.imencode on the annotated array
(none = it raised); inferMs is the externally measured inference time.
Pixel arrays are abstracted to Nat identifiers. -/
structure ImageEnv where
  decode : List Nat → Option Nat
  predict : Nat → Rat → Option (List RawResult)
  plot : RawResult → Nat
  encode : Nat → Option (List Nat)
  inferMs : Rat

/-- Confidence default of detection_service.py line 157: "confidence_threshold
if confidence_threshold is not None else self.settings.confidence_threshold". -/
def effectiveConf (s : Settings) (confidence_threshold : Option Rat) : Rat :=
  match confidence_threshold with
  | some c => c
  | none => s.confidence_threshold

/-- DetectionService.detect_from_image_file (detection_service.py lines 108-193).
The size check precedes the decode attempt; a decode failure raises
InvalidImageException; any exception from predict or from _process_results is
caught by the outer handler and re-raised as DetectionException; the
save_result flag only forwards to the model and is omitted. -/
def detect_from_image_file (s : Settings) (env : ImageEnv) (image_data : List Nat)
    (confidence_threshold : Option Rat) : Except DetectError ImageDetectionResponse :=
  if image_data.length > s.max_image_size then
    .error .imageTooLarge
  else
    match env.decode image_data with
    | none => .error .invalidImage
    | some image_np =>
      match env.predict image_np (effectiveConf s confidence_threshold) with
      | none => .error .detection
      | some results =>
        match processResults results with
        | none => .error .detection
        | some (detections, image_size) =>
          .ok { detections := detections
              , detection_count := detections.length
              , inference_time_ms := env.inferMs
              , image_size := image_size
              , has_weapons := decide (detections.length > 0) }

/-- DetectionService.detect_and_annotate_image (detection_service.py lines
195-285): same validation as detect_from_image_file, then the annotated array
("results[0].plot() if results and len(results) > 0 else image_np") is encoded;
an encode failure is caught by the outer handler as DetectionException. -/
def detect_and_annotate_image (s : Settings) (env : ImageEnv) (image_data : List Nat)
    (confidence_threshold : Option Rat) :
    Except DetectError (List Nat × ImageDetectionResponse) :=
  if image_data.length > s.max_image_size then
    .error .imageTooLarge
  else
    match env.decode image_data with
    | none => .error .invalidImage
    | some image_np =>
      match env.predict image_np (effectiveConf s confidence_threshold) with
      | none => .error .detection
      | some results =>
        match processResults results with
        | none => .error .detection
        | some (detections, image_size) =>
          match env.encode (match results with
            | [] => image_np
            | r :: _ => env.plot r) with
          | none => .error .detection
          | some annotated_bytes =>
            .ok (annotated_bytes,
              { detections := detections
              , detection_count := detections.length
              , inference_time_ms := env.inferMs
              , image_size := image_size
              , has_weapons := decide (detections.length > 0) })

/-- Oracles for the single-shot camera endpoint: opened is cap.isOpened();
readResult is the one cap.read() (none = ret false or frame None). -/
structure CameraEnv where
  opened : Bool
  readResult : Option Nat
  predict : Nat → Rat → Option (List RawResult)
  plot : RawResult → Nat
  inferMs : Rat

/-- DetectionService.detect_from_camera (detection_service.py lines 287-362).
The capture is released immediately after the single read; a closed camera
raises CameraNotFoundException, a failed read raises VideoStreamException,
and predict or mapper exceptions become DetectionException. -/
def detect_from_camera (s : Settings) (env : CameraEnv)
    (confidence_threshold : Option Rat) :
    Except DetectError (Nat × VideoFrameDetection) :=
  if !env.opened then
    .error .cameraNotFound
  else
    match env.readResult with
    | none => .error .videoStream
    | some frame =>
      match env.predict frame (effectiveConf s confidence_threshold) with
      | none => .error .detection
      | some results =>
        match processResults results with
        | none => .error .detection
        | some (detections, _) =>
          .ok ((match results with
            | [] => frame
            | r :: _ => env.plot r),
            { frame_number := 0
            , detections := detections
            , detection_count := detections.length
            , inference_time_ms := env.inferMs
            , has_weapons := decide (detections.length > 0) })

/-- One physical frame delivered by cap.read() inside the streaming loop,
together with the fate of the external calls made for it: predictResult is
self.model.predict (none = it raised); encodeResult is cv2.imencode on the
annotated frame (none = it raised; the identity of the annotated array is
folded into the encoded bytes); inferMs is the measured inference time. -/
structure StreamFrame where
  frameData : Nat
  inferMs : Rat
  predictResult : Option (List RawResult)
  encodeResult : Option (List Nat)
deriving DecidableEq, Repr

/-- Outcome of one cap.read() in the streaming loop: a frame, a clean read
failure ("not ret or frame is None", which breaks the loop), or an exception
raised by the read itself (caught by the outer handler). Exhaustion of the
list is treated as a clean read failure, so a list of n frame outcomes models
a camera that delivers frames for n reads. -/
inductive ReadOutcome where
  | frame (f : StreamFrame)
  | readFail
  | readRaise
deriving DecidableEq, Repr

/-- How one run of the generator ends: normal return (loop break / end),
closed by the consumer (GeneratorExit on client disconnect), or an exception
propagated to the consumer. -/
inductive StreamOutcome where
  | normal
  | cancelled
  | raised (e : DetectError)
deriving DecidableEq, Repr

/-- Body of the per-frame try block, detection_service.py lines 415-444:
predict, _process_results, build the VideoFrameDetection (frame_number :=
frame_count), encode; none means some step raised and the per-frame handler
logged and continued. -/
def processFrame (frame_count : Nat) (f : StreamFrame) :
    Option (List Nat × VideoFrameDetection) :=
  match f.predictResult with
  | none => none
  | some results =>
    match processResults results with
    | none => none
    | some (detections, _) =>
      let detection_result : VideoFrameDetection :=
        { frame_number := frame_count
        , detections := detections
        , detection_count := detections.length
        , inference_time_ms := f.inferMs
        , has_weapons := decide (detections.length > 0) }
      match f.encodeResult with
      | none => none
      | some frame_bytes => some (frame_bytes, detection_result)

/-- While-loop of generate_video_stream, detection_service.py lines 403-450.
frame_count is the Python frame_count variable; budget models the consumer:
none = the client keeps pulling until the generator ends; some b (b ≥ 1) = the
client receives b more items and then disconnects, which resumes the generator
at its yield with GeneratorExit, ending the loop at once.
The branch structure mirrors the source exactly, in particular:
* the skip branch (line 411) increments frame_count and continues;
* the per-frame except branch (line 446) continues WITHOUT incrementing
  frame_count (the increment at line 450 is skipped by the continue);
* a successful iteration increments frame_count after the yield. -/
def streamLoop (frames : List ReadOutcome) (frame_count frame_skip : Nat)
    (budget : Option Nat) : List (List Nat × VideoFrameDetection) × StreamOutcome :=
  match frames with
  | [] => ([], .normal)
  | .readFail :: _ => ([], .normal)
  | .readRaise :: _ => ([], .raised .videoStream)
  | .frame f :: rest =>
    if frame_count % (frame_skip + 1) ≠ 0 then
      streamLoop rest (frame_count + 1) frame_skip budget
    else
      match processFrame frame_count f with
      | none => streamLoop rest frame_count frame_skip budget
      | some item =>
        match budget with
        | none =>
          let r := streamLoop rest (frame_count + 1) frame_skip none
          (item :: r.1, r.2)
        | some b =>
          if b ≤ 1 then ([item], .cancelled)
          else
            let r := streamLoop rest (frame_count + 1) frame_skip (some (b - 1))
            (item :: r.1, r.2)

/-- Observable trace of one full run of the generator. releases counts how
many times cap.release() ran. -/
structure StreamRun where
  emitted : List (List Nat × VideoFrameDetection)
  outcome : StreamOutcome
  releases : Nat
deriving DecidableEq, Repr

/-- DetectionService.generate_video_stream (detection_service.py lines 364-463).
openResult models "cap = cv2.VideoCapture(camera_id)": none = the constructor
itself raised (cap stays None, so the finally block releases nothing), some b =
a capture object was returned with cap.isOpened() = b. budget = some 0 models a
consumer that closes the generator before ever pulling: the body never runs at
all (no open, no release). In every other case the try/finally guarantees that
cap.release() runs exactly once whenever cap is not None:
* isOpened false: CameraNotFoundException is re-raised through the dedicated
  handler, after the finally releases the capture;
* loop break (read failure): normal return through the finally;
* read exception: wrapped as VideoStreamException, after the finally;
* GeneratorExit (client disconnect): not caught by "except Exception"
  (it does not derive from Exception), the finally still runs. -/
def generate_video_stream (openResult : Option Bool) (frames : List ReadOutcome)
    (frame_skip : Nat) (budget : Option Nat) : StreamRun :=
  match budget with
  | some 0 => { emitted := [], outcome := .cancelled, releases := 0 }
  | _ =>
    match openResult with
    | none => { emitted := [], outcome := .raised .videoStream, releases := 0 }
    | some false => { emitted := [], outcome := .raised .cameraNotFound, releases := 1 }
    | some true =>
      let r := streamLoop frames 0 frame_skip budget
      { emitted := r.1, outcome := r.2, releases := 1 }

/-- Model-wrapper state of YOLOModelWrapper (app/models/yolo_model.py): the
_initialized flag, the model handle (None before load; handles abstracted to
Nat) and the stored _settings. -/
structure ModelState where
  initialized : Bool
  model : Option Nat
deriving DecidableEq, Repr

/-- Subset of Settings consumed by load_model. -/
structure ModelSettings where
  model_path : String
  device : String
  half_precision : Bool
  confidence_threshold : Rat
deriving DecidableEq, Repr

/-- Oracles for load_model: Path(...).exists(), the YOLO(...) constructor
(none = it raised), torch.cuda.is_available(), model.to(device) (false = it
raised) and the warm-up predict (false = it raised). -/
structure LoadEnv where
  fileExists : Bool
  loadResult : Option Nat
  cudaAvailable : Bool
  moveOk : Bool
  warmupOk : Bool
deriving DecidableEq, Repr

/-- YOLOModelWrapper.load_model (yolo_model.py lines 42-114), single-threaded
view of the double-checked locking: the guard "self._initialized and
self.model is not None" is tested before and after taking the lock; every
exception inside the try (including the ModelLoadException raised for a
missing file) is re-wrapped as ModelLoadException by the outer handler.
Assignment order mirrors the source: self.model is set before model.to can
raise, and _initialized becomes True before the warm-up predict runs. The CUDA
fallback at lines 75-83 only logs and mutates the caller's settings object —
it cannot fail and never touches the wrapper state — so it is not represented;
the unused settings argument keeps the source signature. -/
def load_model (st : ModelState) (env : LoadEnv) (_settings : ModelSettings) :
    ModelState × Except DetectError Unit :=
  if st.initialized && st.model.isSome then (st, .ok ())
  else if st.initialized && st.model.isSome then (st, .ok ())
  else if !env.fileExists then (st, .error .modelLoad)
  else
    match env.loadResult with
    | none => (st, .error .modelLoad)
    | some m =>
      if !env.moveOk then ({ st with model := some m }, .error .modelLoad)
      else if !env.warmupOk then ({ initialized := true, model := some m }, .error .modelLoad)
      else ({ initialized := true, model := some m }, .ok ())

/-- Decides whether the per-frame try block succeeds for a frame (independent
of the current frame_count, which only names the emitted frame). -/
def frameOk (f : StreamFrame) : Bool :=
  (match f.predictResult with
   | none => false
   | some rs => (processResults rs).isSome) && f.encodeResult.isSome

/-- A read outcome that delivers a frame whose processing will succeed. -/
def goodRead (r : ReadOutcome) : Bool :=
  match r with
  | .frame f => frameOk f
  | _ => false

/-- A read outcome that delivers a frame (its processing may fail). -/
def isFrameRead (r : ReadOutcome) : Bool :=
  match r with
  | .frame _ => true
  | _ => false

/-- Small concrete settings used to evaluate the theorems: 4-byte size limit. -/
def wSettings : Settings := { max_image_size := 4, confidence_threshold := 1 }

/-- Oracle whose decode always raises (a corrupt upload). -/
def wEnvNone : ImageEnv :=
  { decode := fun _ => none
  , predict := fun _ _ => none
  , plot := fun _ => 0
  , encode := fun _ => none
  , inferMs := 0 }

/-- Oracle whose decode and predict succeed with an empty result list. -/
def wEnvOk : ImageEnv :=
  { decode := fun _ => some 0
  , predict := fun _ _ => some []
  , plot := fun _ => 0
  , encode := fun _ => some [7]
  , inferMs := 0 }

/-- Response produced by wEnvOk on an in-limit upload: zero detections. -/
def wResp : ImageDetectionResponse :=
  { detections := [], detection_count := 0, inference_time_ms := 0,
    image_size := (0, 0), has_weapons := false }

/-- Concrete stream frame whose processing succeeds (empty result list). -/
def cexGoodFrame : StreamFrame :=
  { frameData := 1, inferMs := 0, predictResult := some [], encodeResult := some [1] }

/-- Concrete stream frame whose inference raises. -/
def cexBadFrame : StreamFrame :=
  { frameData := 0, inferMs := 0, predictResult := none, encodeResult := some [0] }

/-- Raw row whose class id 0 is present in the names dict. -/
def okRow : RawBox := { xyxy := (0, 0, 1, 1), conf := 1, cls := 0 }

/-- Raw row whose class id 1 is missing from the names dict. -/
def badRow : RawBox := { xyxy := (0, 0, 1, 1), conf := 1, cls := 1 }

/-- Raw result carrying a names dict that lacks the class id of badRow. -/
def cexResult : RawResult :=
  { orig_shape := some (480, 640), names := some [(0, "gun")], boxes := some [okRow, badRow] }

/-- Load environment in which every external step succeeds. -/
def wLoadEnv : LoadEnv :=
  { fileExists := true, loadResult := some 7, cudaAvailable := true, moveOk := true, warmupOk := true }

/-- Load environment in which every external step would fail, used to observe
that a second load never consults the environment. -/
def wLoadEnvDead : LoadEnv :=
  { fileExists := false, loadResult := none, cudaAvailable := false, moveOk := false, warmupOk := false }

/-- Concrete model settings. -/
def wModelSettings : ModelSettings :=
  { model_path := "best.pt", device := "cpu", half_precision := false, confidence_threshold := 1 }

/-- Shape invariant of every successfully built response: detection_count is
the length of the detections list and has_weapons decides detection_count > 0. -/
theorem detect_from_image_file_ok_invariant (s : Settings) (env : ImageEnv)
    (data : List Nat) (conf : Option Rat) (r : ImageDetectionResponse)
    (h : detect_from_image_file s env data conf = .ok r) :
    r.detection_count = r.detections.length ∧
      (r.has_weapons = true ↔ 0 < r.detection_count) := by
  unfold detect_from_image_file at h
  split at h
  · exact Except.noConfusion h
  · split at h
    · exact Except.noConfusion h
    · split at h
      · exact Except.noConfusion h
      · split at h
        · exact Except.noConfusion h
        · cases h
          simp

/-- Shape invariant of detect_and_annotate_image's successful response. -/
theorem detect_and_annotate_image_ok_invariant (s : Settings) (env : ImageEnv)
    (data : List Nat) (conf : Option Rat) (ab : List Nat) (r : ImageDetectionResponse)
    (h : detect_and_annotate_image s env data conf = .ok (ab, r)) :
    r.detection_count = r.detections.length ∧
      (r.has_weapons = true ↔ 0 < r.detection_count) := by
  unfold detect_and_annotate_image at h
  split at h
  · exact Except.noConfusion h
  · split at h
    · exact Except.noConfusion h
    · split at h
      · exact Except.noConfusion h
      · split at h
        · exact Except.noConfusion h
        · split at h
          · exact Except.noConfusion h
          · rw [Except.ok.injEq, Prod.mk.injEq] at h
            obtain ⟨-, h2⟩ := h
            subst h2
            simp

/-- Shape invariant of detect_from_camera's successful response. -/
theorem detect_from_camera_ok_invariant (s : Settings) (env : CameraEnv)
    (conf : Option Rat) (fr : Nat) (d : VideoFrameDetection)
    (h : detect_from_camera s env conf = .ok (fr, d)) :
    d.detection_count = d.detections.length ∧
      (d.has_weapons = true ↔ 0 < d.detection_count) := by
  unfold detect_from_camera at h
  split at h
  · exact Except.noConfusion h
  · split at h
    · exact Except.noConfusion h
    · split at h
      · exact Except.noConfusion h
      · split at h
        · exact Except.noConfusion h
        · rw [Except.ok.injEq, Prod.mk.injEq] at h
          obtain ⟨-, h2⟩ := h
          subst h2
          simp

/-- Per-frame processing succeeds exactly when frameOk holds; the current
frame_count only fixes the emitted frame_number. -/
theorem processFrame_isSome_iff (fc : Nat) (f : StreamFrame) :
    (processFrame fc f).isSome = frameOk f := by
  unfold processFrame frameOk
  cases f.predictResult with
  | none => simp
  | some rs =>
    cases hr : processResults rs with
    | none => simp [hr]
    | some p =>
      obtain ⟨ds, sz⟩ := p
      cases f.encodeResult <;> simp [hr]

/-- Every emitted item carries the frame_count at which it was produced, and
satisfies the response-shape invariant. -/
theorem processFrame_some (fc : Nat) (f : StreamFrame)
    (item : List Nat × VideoFrameDetection) (h : processFrame fc f = some item) :
    item.2.frame_number = fc ∧
      item.2.detection_count = item.2.detections.length ∧
      (item.2.has_weapons = true ↔ 0 < item.2.detection_count) := by
  unfold processFrame at h
  split at h
  · exact Option.noConfusion h
  · split at h
    · exact Option.noConfusion h
    · split at h
      · exact Option.noConfusion h
      · rw [Option.some.injEq] at h
        subst h
        simp

/-- Every item emitted by the streaming loop satisfies the response-shape
invariant, whatever the consumer behaviour. -/
theorem streamLoop_mem_invariant (frames : List ReadOutcome) (fc skip : Nat)
    (budget : Option Nat) (p : List Nat × VideoFrameDetection)
    (hp : p ∈ (streamLoop frames fc skip budget).1) :
    p.2.detection_count = p.2.detections.length ∧
      (p.2.has_weapons = true ↔ 0 < p.2.detection_count) := by
  induction frames generalizing fc budget with
  | nil => simp [streamLoop] at hp
  | cons r rest ih =>
    cases r with
    | readFail => simp [streamLoop] at hp
    | readRaise => simp [streamLoop] at hp
    | frame f =>
      rw [streamLoop] at hp
      by_cases hmod : fc % (skip + 1) ≠ 0
      · rw [if_pos hmod] at hp
        exact ih _ _ hp
      · rw [if_neg hmod] at hp
        cases hpf : processFrame fc f with
        | none =>
          simp only [hpf] at hp
          exact ih _ _ hp
        | some item =>
          cases budget with
          | none =>
            simp only [hpf] at hp
            rcases List.mem_cons.mp hp with hpi | hp'
            · subst hpi
              exact (processFrame_some fc f p hpf).2
            · exact ih _ _ hp'
          | some b =>
            simp only [hpf] at hp
            by_cases hb : b ≤ 1
            · rw [if_pos hb] at hp
              rcases List.mem_singleton.mp hp with hpi
              subst hpi
              exact (processFrame_some fc f p hpf).2
            · rw [if_neg hb] at hp
              rcases List.mem_cons.mp hp with hpi | hp'
              · subst hpi
                exact (processFrame_some fc f p hpf).2
              · exact ih _ _ hp'

/-- With a consumer that keeps pulling and a run in which every read delivers a
frame whose processing succeeds, the emitted frame numbers are exactly the raw
read indices (starting at fc) that the skip policy selects. -/
theorem streamLoop_frame_numbers (frames : List ReadOutcome) (skip : Nat)
    (h : frames.all goodRead = true) :
    ∀ fc : Nat,
      ((streamLoop frames fc skip none).1).map (fun p => p.2.frame_number) =
        (List.range' fc frames.length).filter (fun n => n % (skip + 1) == 0) := by
  induction frames with
  | nil => intro fc; simp [streamLoop]
  | cons r rest ih =>
    rw [List.all_cons, Bool.and_eq_true] at h
    obtain ⟨hr, hrest⟩ := h
    intro fc
    cases r with
    | readFail => simp [goodRead] at hr
    | readRaise => simp [goodRead] at hr
    | frame f =>
      rw [List.length_cons, List.range'_succ, streamLoop]
      by_cases hmod : fc % (skip + 1) ≠ 0
      · rw [if_pos hmod, List.filter_cons_of_neg (by simpa using hmod)]
        exact ih hrest (fc + 1)
      · rw [if_neg hmod]
        rw [Decidable.not_not] at hmod
        have hfok : frameOk f = true := by simpa [goodRead] using hr
        have hsome : (processFrame fc f).isSome = true := by
          rw [processFrame_isSome_iff]; exact hfok
        cases hpf : processFrame fc f with
        | none => rw [hpf] at hsome; simp at hsome
        | some item =>
          simp only [hpf]
          rw [List.filter_cons_of_pos (by simpa using hmod), List.map_cons,
            (processFrame_some fc f item hpf).1]
          rw [ih hrest (fc + 1)]

/-- Counts the indices selected by the skip policy: among the first n raw
indices, exactly ceil(n / (k+1)) = (n + k) / (k + 1) are divisible by k+1. -/
theorem length_filter_range_mod (k : Nat) :
    ∀ n : Nat,
      ((List.range n).filter (fun x => x % (k + 1) == 0)).length = (n + k) / (k + 1) := by
  intro n
  induction n with
  | zero => simp [Nat.div_eq_of_lt (Nat.lt_succ_of_le (Nat.le_refl k))]
  | succ n ih =>
    rw [List.range_succ, List.filter_append, List.length_append, ih]
    have harith : n + 1 + k = (n + k) + 1 := by omega
    rw [harith, Nat.succ_div]
    by_cases h : n % (k + 1) = 0
    · have hdvd : (k + 1) ∣ (n + k + 1) := by
        have h1 : (k + 1) ∣ n := Nat.dvd_of_mod_eq_zero h
        have h2 : n + k + 1 = n + (k + 1) := by omega
        rw [h2]
        exact Nat.dvd_add h1 (Nat.dvd_refl _)
      rw [if_pos hdvd]
      simp [h]
    · have hndvd : ¬ (k + 1) ∣ (n + k + 1) := by
        intro hdvd
        have h2 : n + k + 1 = n + (k + 1) := by omega
        rw [h2] at hdvd
        have h1 : (k + 1) ∣ n := (Nat.dvd_add_iff_left (Nat.dvd_refl _)).mpr hdvd
        exact h (Nat.mod_eq_zero_of_dvd h1)
      rw [if_neg hndvd]
      simp [h]

/-- As long as every read delivers a frame (whether or not its processing
succeeds) and the consumer keeps pulling, the loop ends normally: the only way
it stops is the break on a failed read, never an exception. -/
theorem streamLoop_normal (frames : List ReadOutcome)
    (h : frames.all isFrameRead = true) :
    ∀ fc skip : Nat, (streamLoop frames fc skip none).2 = .normal := by
  induction frames with
  | nil => intro fc skip; simp [streamLoop]
  | cons r rest ih =>
    rw [List.all_cons, Bool.and_eq_true] at h
    obtain ⟨hr, hrest⟩ := h
    intro fc skip
    cases r with
    | readFail => simp [isFrameRead] at hr
    | readRaise => simp [isFrameRead] at hr
    | frame f =>
      rw [streamLoop]
      by_cases hmod : fc % (skip + 1) ≠ 0
      · rw [if_pos hmod]
        exact ih hrest _ _
      · rw [if_neg hmod]
        cases hpf : processFrame fc f with
        | none => simp only; exact ih hrest _ _
        | some item => simp only; exact ih hrest _ _

/-- A failed read breaks the loop at once: frames queued behind the failing
read are never seen. -/
theorem streamLoop_readFail_break (pre : List ReadOutcome)
    (h : pre.all isFrameRead = true) :
    ∀ (post : List ReadOutcome) (fc skip : Nat),
      streamLoop (pre ++ .readFail :: post) fc skip none =
        streamLoop pre fc skip none := by
  induction pre with
  | nil => intro post fc skip; simp [streamLoop]
  | cons r rest ih =>
    rw [List.all_cons, Bool.and_eq_true] at h
    obtain ⟨hr, hrest⟩ := h
    intro post fc skip
    cases r with
    | readFail => simp [isFrameRead] at hr
    | readRaise => simp [isFrameRead] at hr
    | frame f =>
      rw [List.cons_append, streamLoop, streamLoop]
      by_cases hmod : fc % (skip + 1) ≠ 0
      · rw [if_pos hmod, if_pos hmod]
        exact ih hrest post _ _
      · rw [if_neg hmod, if_neg hmod]
        cases hpf : processFrame fc f with
        | none => simp only; exact ih hrest post _ _
        | some item => simp only [ih hrest post _ _]

/-- With no names attribute on the result, every row independently receives the
synthesized class label. -/
theorem mapRows_no_names (bs : List RawBox) :
    mapRows none bs =
      some (bs.map (fun b => rowDetection ("class_" ++ toString b.cls) b)) := by
  induction bs with
  | nil => rfl
  | cons b rest ih => simp [mapRows, processRow, ih]

/-- With a names dict present, a single row whose class id is missing aborts
the whole mapping. -/
theorem mapRows_abort (m : List (Nat × String)) (bs : List RawBox) (b : RawBox)
    (hb : b ∈ bs) (hl : lookupName m b.cls = none) :
    mapRows (some m) bs = none := by
  induction bs with
  | nil => cases hb
  | cons a rest ih =>
    rcases List.mem_cons.mp hb with hba | hmem
    · subst hba
      simp [mapRows, processRow, hl]
    · rw [mapRows]
      cases hpa : processRow (some m) a with
      | none => rfl
      | some d => simp only [ih hmem]

/-- A successful load_model call always leaves the wrapper initialized with a
model instance present. -/
theorem load_model_ok_state (st : ModelState) (env : LoadEnv) (s : ModelSettings)
    (st' : ModelState) (h : load_model st env s = (st', .ok ())) :
    st'.initialized = true ∧ st'.model.isSome = true := by
  unfold load_model at h
  by_cases hg : (st.initialized && st.model.isSome) = true
  · rw [if_pos hg, Prod.mk.injEq] at h
    obtain ⟨h1, -⟩ := h
    subst h1
    simpa using hg
  · rw [if_neg hg, if_neg hg] at h
    by_cases hf : (!env.fileExists) = true
    · rw [if_pos hf] at h
      simp at h
    · rw [if_neg hf] at h
      cases hl : env.loadResult with
      | none =>
        simp only [hl] at h
        simp at h
      | some m =>
        simp only [hl] at h
        by_cases hm : (!env.moveOk) = true
        · rw [if_pos hm] at h
          simp at h
        · rw [if_neg hm] at h
          by_cases hw : (!env.warmupOk) = true
          · rw [if_pos hw] at h
            simp at h
          · rw [if_neg hw, Prod.mk.injEq] at h
            obtain ⟨h1, -⟩ := h
            subst h1
            exact ⟨rfl, rfl⟩

/-- The emitted list of a full generator run is empty (body never ran, or open
failed) or is exactly what the while-loop emits from frame_count 0. -/
theorem generate_video_stream_emitted_cases (o : Option Bool)
    (frames : List ReadOutcome) (skip : Nat) (budget : Option Nat) :
    (generate_video_stream o frames skip budget).emitted = [] ∨
      (generate_video_stream o frames skip budget).emitted =
        (streamLoop frames 0 skip budget).1 := by
  cases budget with
  | none =>
    cases o with
    | none => exact Or.inl rfl
    | some b => cases b with
      | false => exact Or.inl rfl
      | true => exact Or.inr rfl
  | some n =>
    cases n with
    | zero => exact Or.inl rfl
    | succ n =>
      cases o with
      | none => exact Or.inl rfl
      | some b => cases b with
        | false => exact Or.inl rfl
        | true => exact Or.inr rfl

/-- C1: for every frame_skip value k ≥ 0, over a run of the streaming generator
that reads N raw frames with no per-frame processing failures, the number of
(frame bytes, detection result) pairs emitted is at most ceil(N/(k+1)) (written
(N + k) / (k + 1) in natural division), and the frame_number values emitted are
exactly the raw read indices divisible by (k+1), starting at 0. -/
theorem c1_frame_skip_policy :
    ∀ (frames : List ReadOutcome) (skip : Nat),
      frames.all goodRead = true →
      ((generate_video_stream (some true) frames skip none).emitted.map
          (fun p => p.2.frame_number) =
        (List.range frames.length).filter (fun n => n % (skip + 1) == 0)) ∧
      (generate_video_stream (some true) frames skip none).emitted.length ≤
        (frames.length + skip) / (skip + 1) := by
  intro frames skip h
  have hgen : (generate_video_stream (some true) frames skip none).emitted =
      (streamLoop frames 0 skip none).1 := rfl
  have hmap := streamLoop_frame_numbers frames skip h 0
  rw [← List.range_eq_range'] at hmap
  constructor
  · rw [hgen]
    exact hmap
  · rw [hgen]
    have hlen : (streamLoop frames 0 skip none).1.length =
        ((List.range frames.length).filter (fun n => n % (skip + 1) == 0)).length := by
      rw [← hmap, List.length_map]
    rw [hlen, length_filter_range_mod]

/-- C1 witness: three good frames with frame_skip 1 emit frame numbers 0 and 2,
two pairs, within the ceiling bound (3 + 1) / 2 = 2. -/
theorem c1_witness :
    ((generate_video_stream (some true)
        [.frame cexGoodFrame, .frame cexGoodFrame, .frame cexGoodFrame] 1 none).emitted.map
        (fun p => p.2.frame_number) =
      (List.range 3).filter (fun n => n % 2 == 0)) ∧
    (generate_video_stream (some true)
        [.frame cexGoodFrame, .frame cexGoodFrame, .frame cexGoodFrame] 1 none).emitted.length ≤
      2 :=
  c1_frame_skip_policy [.frame cexGoodFrame, .frame cexGoodFrame, .frame cexGoodFrame] 1
    (by decide)

/-- C2 counterexample: with frame_skip 0, when inference fails on the first
frame read (raw index 0), the next frame read (raw index 1) is emitted with
frame_number 0, not 1 — the source skips the frame_count increment on the
per-frame failure path (the continue at detection_service.py line 448 bypasses
line 450), so the counter does NOT increment once per frame read. -/
theorem c2_counterexample :
    ((generate_video_stream (some true) [.frame cexBadFrame, .frame cexGoodFrame] 0
          none).emitted.map (fun p => p.2.frame_number) = [0]) ∧
      [0] ≠ ([1] : List Nat) := ⟨rfl, by decide⟩

/-- C2 (amended): if processing fails for a frame selected by the skip policy,
the stream does not terminate, nothing is emitted for that frame, and the next
frame read is processed at once; but the frame counter is NOT incremented for
the failed frame, so that next frame is emitted with the same frame_number the
failed frame would have carried. -/
theorem c2_fault_isolation_amended :
    ∀ (bad good : StreamFrame) (rest : List ReadOutcome) (fc skip : Nat)
      (item : List Nat × VideoFrameDetection),
      fc % (skip + 1) = 0 →
      processFrame fc bad = none →
      processFrame fc good = some item →
      (streamLoop (.frame bad :: .frame good :: rest) fc skip none =
        (item :: (streamLoop rest (fc + 1) skip none).1,
          (streamLoop rest (fc + 1) skip none).2)) ∧
      item.2.frame_number = fc := by
  intro bad good rest fc skip item hmod hbad hgood
  refine ⟨?_, (processFrame_some fc good item hgood).1⟩
  have hnn : ¬ fc % (skip + 1) ≠ 0 := by simp [hmod]
  rw [streamLoop, if_neg hnn]
  simp only [hbad]
  rw [streamLoop, if_neg hnn]
  simp only [hgood]

/-- C2 witness: concrete failing frame followed by a good frame at frame_count
0 and frame_skip 0. -/
theorem c2_witness :
    (streamLoop [.frame cexBadFrame, .frame cexGoodFrame] 0 0 none =
      (([1], { frame_number := 0, detections := [], detection_count := 0,
               inference_time_ms := 0, has_weapons := false }) ::
          (streamLoop [] 1 0 none).1,
        (streamLoop [] 1 0 none).2)) ∧
      (([1], { frame_number := 0, detections := [], detection_count := 0,
               inference_time_ms := 0, has_weapons := false }) :
          List Nat × VideoFrameDetection).2.frame_number = 0 :=
  c2_fault_isolation_amended cexBadFrame cexGoodFrame [] 0 0
    ([1], { frame_number := 0, detections := [], detection_count := 0,
            inference_time_ms := 0, has_weapons := false }) rfl rfl rfl

/-- C3: on every exit path of the streaming generator whose body ran and whose
camera constructor returned (normal end of stream, setup or loop error, and
consumer cancellation at any yield), the capture acquired at the start is
released exactly once before the generator finishes. -/
theorem c3_release_exactly_once :
    ∀ (b : Bool) (frames : List ReadOutcome) (skip : Nat) (budget : Option Nat),
      budget ≠ some 0 →
      (generate_video_stream (some b) frames skip budget).releases = 1 := by
  intro b frames skip budget hb
  cases budget with
  | none => cases b <;> rfl
  | some n =>
    cases n with
    | zero => exact absurd rfl hb
    | succ n => cases b <;> rfl

/-- C3 witness: a normal run over one good frame and a read failure releases
the camera exactly once. -/
theorem c3_witness :
    (generate_video_stream (some true) [.frame cexGoodFrame, .readFail] 0 none).releases = 1 :=
  c3_release_exactly_once true [.frame cexGoodFrame, .readFail] 0 none (by decide)

/-- C4: when the camera cannot be opened the generator raises the 404
CameraNotFoundException and emits no frames; a failed frame read while the
device is open instead breaks the loop and the stream ends normally, with no
error surfaced to the consumer. -/
theorem c4_open_failure_vs_read_failure :
    (∀ (frames : List ReadOutcome) (skip : Nat) (budget : Option Nat),
        budget ≠ some 0 →
        (generate_video_stream (some false) frames skip budget).outcome =
            .raised .cameraNotFound ∧
          (generate_video_stream (some false) frames skip budget).emitted = []) ∧
      status_code .cameraNotFound = 404 ∧
      (∀ (pre post : List ReadOutcome) (skip : Nat),
        pre.all isFrameRead = true →
        (generate_video_stream (some true) (pre ++ .readFail :: post) skip none).outcome =
          .normal) := by
  refine ⟨?_, rfl, ?_⟩
  · intro frames skip budget hb
    cases budget with
    | none => exact ⟨rfl, rfl⟩
    | some n =>
      cases n with
      | zero => exact absurd rfl hb
      | succ n => exact ⟨rfl, rfl⟩
  · intro pre post skip hpre
    have hgen : (generate_video_stream (some true) (pre ++ .readFail :: post) skip
        none).outcome = (streamLoop (pre ++ .readFail :: post) 0 skip none).2 := rfl
    rw [hgen, streamLoop_readFail_break pre hpre post 0 skip]
    exact streamLoop_normal pre hpre 0 skip

/-- C4 witness: closed camera raises 404 with nothing emitted; an open camera
whose second read fails (after a frame whose processing failed) ends normally. -/
theorem c4_witness :
    ((generate_video_stream (some false) [.frame cexGoodFrame] 0 none).outcome =
        .raised .cameraNotFound ∧
      (generate_video_stream (some false) [.frame cexGoodFrame] 0 none).emitted = []) ∧
    (generate_video_stream (some true)
        ([.frame cexBadFrame] ++ .readFail :: [.frame cexGoodFrame]) 0 none).outcome =
      .normal :=
  ⟨c4_open_failure_vs_read_failure.1 [.frame cexGoodFrame] 0 none (by decide),
    c4_open_failure_vs_read_failure.2.2 [.frame cexBadFrame] [.frame cexGoodFrame] 0 (by decide)⟩

/-- C5: for every response shape the service produces — image detection,
annotated image, single camera frame, and each streamed frame result —
has_weapons is true iff detection_count > 0 and detection_count is the length
of the detections list; in particular zero detections yield detections = [],
detection_count = 0, has_weapons = false. -/
theorem c5_has_weapons_iff :
    (∀ (s : Settings) (env : ImageEnv) (data : List Nat) (conf : Option Rat)
        (r : ImageDetectionResponse),
        detect_from_image_file s env data conf = .ok r →
        r.detection_count = r.detections.length ∧
          (r.has_weapons = true ↔ 0 < r.detection_count) ∧
          (r.detections = [] → r.detection_count = 0 ∧ r.has_weapons = false)) ∧
    (∀ (s : Settings) (env : ImageEnv) (data : List Nat) (conf : Option Rat)
        (ab : List Nat) (r : ImageDetectionResponse),
        detect_and_annotate_image s env data conf = .ok (ab, r) →
        r.detection_count = r.detections.length ∧
          (r.has_weapons = true ↔ 0 < r.detection_count)) ∧
    (∀ (s : Settings) (env : CameraEnv) (conf : Option Rat) (fr : Nat)
        (d : VideoFrameDetection),
        detect_from_camera s env conf = .ok (fr, d) →
        d.detection_count = d.detections.length ∧
          (d.has_weapons = true ↔ 0 < d.detection_count)) ∧
    (∀ (o : Option Bool) (frames : List ReadOutcome) (skip : Nat)
        (budget : Option Nat) (p : List Nat × VideoFrameDetection),
        p ∈ (generate_video_stream o frames skip budget).emitted →
        p.2.detection_count = p.2.detections.length ∧
          (p.2.has_weapons = true ↔ 0 < p.2.detection_count)) := by
  refine ⟨?_, ?_, ?_, ?_⟩
  · intro s env data conf r h
    obtain ⟨h1, h2⟩ := detect_from_image_file_ok_invariant s env data conf r h
    refine ⟨h1, h2, ?_⟩
    intro hnil
    have hc : r.detection_count = 0 := by rw [h1, hnil]; rfl
    refine ⟨hc, ?_⟩
    cases hw : r.has_weapons
    · rfl
    · have := h2.mp hw
      omega
  · intro s env data conf ab r h
    exact detect_and_annotate_image_ok_invariant s env data conf ab r h
  · intro s env conf fr d h
    exact detect_from_camera_ok_invariant s env conf fr d h
  · intro o frames skip budget p hp
    rcases generate_video_stream_emitted_cases o frames skip budget with hemp | heq
    · rw [hemp] at hp
      cases hp
    · rw [heq] at hp
      exact streamLoop_mem_invariant frames 0 skip budget p hp

/-- C5 witness: a run with zero detections yields the empty-detections response
whose shape satisfies the invariant. -/
theorem c5_witness :
    wResp.detection_count = wResp.detections.length ∧
      (wResp.has_weapons = true ↔ 0 < wResp.detection_count) ∧
      (wResp.detections = [] → wResp.detection_count = 0 ∧ wResp.has_weapons = false) :=
  c5_has_weapons_iff.1 wSettings wEnvOk [0, 0] none wResp rfl

/-- C6: an upload strictly larger than the configured maximum always yields the
413 ImageTooLargeException; the environment (decode, predict) is universally
quantified, so the rejection is decided before any decode attempt — it holds
even for an oracle whose decode would succeed. -/
theorem c6_oversize_rejected :
    ∀ (s : Settings) (env : ImageEnv) (data : List Nat) (conf : Option Rat),
      data.length > s.max_image_size →
      detect_from_image_file s env data conf = .error .imageTooLarge ∧
        status_code .imageTooLarge = 413 := by
  intro s env data conf h
  refine ⟨?_, rfl⟩
  unfold detect_from_image_file
  rw [if_pos h]

/-- C6 witness: a 5-byte upload against a 4-byte limit is rejected even though
the oracle would decode it. -/
theorem c6_witness :
    detect_from_image_file wSettings wEnvOk [0, 0, 0, 0, 0] none =
        .error .imageTooLarge ∧
      status_code .imageTooLarge = 413 :=
  c6_oversize_rejected wSettings wEnvOk [0, 0, 0, 0, 0] none (by decide)

/-- C7: a byte sequence within the size limit that fails to decode always
yields the 400 InvalidImageException — never an uncaught crash (the embedding
is total) and never the 500 DetectionException. -/
theorem c7_decode_failure_invalid_image :
    ∀ (s : Settings) (env : ImageEnv) (data : List Nat) (conf : Option Rat),
      data.length ≤ s.max_image_size →
      env.decode data = none →
      detect_from_image_file s env data conf = .error .invalidImage ∧
        status_code .invalidImage = 400 ∧
        detect_from_image_file s env data conf ≠ .error .detection := by
  intro s env data conf hle hdec
  have h1 : detect_from_image_file s env data conf = .error .invalidImage := by
    unfold detect_from_image_file
    rw [if_neg (by omega)]
    simp only [hdec]
  refine ⟨h1, rfl, ?_⟩
  rw [h1]
  simp

/-- C7 witness: a 1-byte upload whose decode raises yields InvalidImage. -/
theorem c7_witness :
    detect_from_image_file wSettings wEnvNone [0] none = .error .invalidImage ∧
      status_code .invalidImage = 400 ∧
      detect_from_image_file wSettings wEnvNone [0] none ≠ .error .detection :=
  c7_decode_failure_invalid_image wSettings wEnvNone [0] none (by decide) rfl

/-- C8 counterexample: cexResult carries names = (0 maps to "gun") and rows
with class ids 0 and 1; the claim predicts row 1 degrades to "class_1" while
row 0 is still mapped, but the names lookup for class id 1 raises a KeyError
that aborts the mapping of the whole result — nothing is mapped. -/
theorem c8_counterexample : processResults [cexResult] = none := rfl

/-- C8 (amended): the class_<id> fallback is per-result, not per-row: when the
raw result has no names mapping at all, every row is mapped with the
synthesized class_<id> label; when the result does carry a names mapping, a
row whose class id is missing from it aborts the mapping of the whole result
instead of degrading independently. -/
theorem c8_fallback_per_result :
    (∀ (shape : Option (Nat × Nat)) (bs : List RawBox),
        processResults [{ orig_shape := shape, names := none, boxes := some bs }] =
          some (bs.map (fun b => rowDetection ("class_" ++ toString b.cls) b),
            match shape with
            | some (h, w) => (w, h)
            | none => (0, 0))) ∧
    (∀ (r : RawResult) (m : List (Nat × String)) (bs : List RawBox) (b : RawBox),
        r.names = some m → r.boxes = some bs → b ∈ bs → lookupName m b.cls = none →
        processResults [r] = none) := by
  constructor
  · intro shape bs
    simp only [processResults, mapRows_no_names]
  · intro r m bs b hn hb hmem hl
    simp only [processResults, hn, hb, mapRows_abort m bs b hmem hl]

/-- C8 witness: the amended behaviour evaluated on the concrete result whose
names dict lacks class id 1. -/
theorem c8_witness : processResults [cexResult] = none :=
  c8_fallback_per_result.2 cexResult [(0, "gun")] [okRow, badRow] badRow rfl rfl
    (by decide) rfl

/-- C9: loading the model is idempotent: whenever a call to load_model returns
successfully, every subsequent call on the resulting state is a no-op that
returns without error, performs no second load (the environment of the second
call is universally quantified and never consulted) and leaves the state,
including the loaded model instance, unchanged. -/
theorem c9_load_model_idempotent :
    ∀ (st : ModelState) (env : LoadEnv) (s : ModelSettings) (st' : ModelState),
      load_model st env s = (st', .ok ()) →
      ∀ (env' : LoadEnv) (s' : ModelSettings), load_model st' env' s' = (st', .ok ()) := by
  intro st env s st' h env' s'
  obtain ⟨h1, h2⟩ := load_model_ok_state st env s st' h
  unfold load_model
  rw [if_pos (by rw [h1, h2]; rfl)]

/-- C9 witness: after a successful first load, a second call succeeds as a
no-op even in an environment where every external load step would fail. -/
theorem c9_witness :
    load_model { initialized := true, model := some 7 } wLoadEnvDead wModelSettings =
      ({ initialized := true, model := some 7 }, .ok ()) :=
  c9_load_model_idempotent { initialized := false, model := none } wLoadEnv wModelSettings
    { initialized := true, model := some 7 } rfl wLoadEnvDead wModelSettings

/-- C10: the size limit is exclusive at the boundary: the 413 rejection occurs
exactly for uploads strictly larger than max_image_size, and an upload whose
length equals the limit proceeds to the decode step (here observed through a
decode that raises, yielding InvalidImage rather than ImageTooLarge). -/
theorem c10_boundary_exclusive :
    ∀ (s : Settings) (env : ImageEnv) (data : List Nat) (conf : Option Rat),
      (detect_from_image_file s env data conf = .error .imageTooLarge ↔
        data.length > s.max_image_size) ∧
      (data.length = s.max_image_size → env.decode data = none →
        detect_from_image_file s env data conf = .error .invalidImage) := by
  intro s env data conf
  constructor
  · constructor
    · intro h
      by_contra hlen
      unfold detect_from_image_file at h
      rw [if_neg hlen] at h
      cases hdec : env.decode data with
      | none =>
        simp only [hdec] at h
        simp at h
      | some img =>
        simp only [hdec] at h
        cases hpred : env.predict img (effectiveConf s conf) with
        | none =>
          simp only [hpred] at h
          simp at h
        | some results =>
          simp only [hpred] at h
          cases hpr : processResults results with
          | none =>
            simp only [hpr] at h
            simp at h
          | some pr =>
            obtain ⟨dets, sz⟩ := pr
            simp only [hpr] at h
            simp at h
    · intro h
      unfold detect_from_image_file
      rw [if_pos h]
  · intro hlen hdec
    unfold detect_from_image_file
    rw [if_neg (by omega)]
    simp only [hdec]

/-- C10 witness: a 4-byte upload at the exact 4-byte limit is not rejected as
too large; it reaches the decode, whose failure yields InvalidImage. -/
theorem c10_witness :
    detect_from_image_file wSettings wEnvNone [0, 0, 0, 0] none = .error .invalidImage :=
  (c10_boundary_exclusive wSettings wEnvNone [0, 0, 0, 0] none).2 rfl rfl
